import Mathlib

/-!
Shallow embedding of the utility-VM creation pipeline
(`internal/uvm/create_wcow.go`) and of the network-namespace provisioning
functions (`internal/hcsoci/network.go`) of the hcsshim repository, with
theorems settling the frozen claims about them.

External collaborators (the host virtualization service, the filesystem,
the HNS network control plane, the hvsock listener) are modelled as an
explicit environment record of fallible calls; the filesystem is a set of
existing paths; each modelled function additionally returns the ordered
trace of the external calls it made.
-/

namespace HcsShim

/-- A JSON value, for the document-merge component. -/
inductive JVal where
  | null : JVal
  | bool (b : Bool) : JVal
  | num (n : Int) : JVal
  | str (s : String) : JVal
  | arr (xs : List JVal) : JVal
  | obj (fields : List (String × JVal)) : JVal
deriving Repr

mutual

/-- Modelled from the spec: the document-merge component
(`internal/mergemaps`, not under src/): the built document is merged with
the caller-supplied override fragment, and the fragment wins on
overlapping leaf keys while objects are merged recursively. -/
def mergeJVal : JVal → JVal → JVal
  | JVal.obj bs, JVal.obj fs => JVal.obj (mergeFields bs fs)
  | _, f => f
termination_by _b f => (sizeOf f, 0)

/-- Fold every fragment field into the base object's field list. -/
def mergeFields : List (String × JVal) → List (String × JVal) → List (String × JVal)
  | bs, [] => bs
  | bs, (k, fv) :: fs => mergeFields (upsertField bs k fv) fs
termination_by bs fs => (sizeOf fs, sizeOf bs)

/-- Set key `k` in a field list: merge into an existing entry, else append. -/
def upsertField : List (String × JVal) → String → JVal → List (String × JVal)
  | [], k, fv => [(k, fv)]
  | (k1, bv) :: bs, k, fv =>
      if k1 = k then (k1, mergeJVal bv fv) :: bs
      else (k1, bv) :: upsertField bs k fv
termination_by bs _k fv => (sizeOf fv, sizeOf bs)

end

/-- Modelled from the spec: `MergeJSON` applied to an already-parsed
fragment; an absent (empty) fragment leaves the document as it is. -/
def MergeJSON (doc : JVal) (fragment : Option JVal) : JVal :=
  match fragment with
  | none => doc
  | some f => mergeJVal doc f

/-- Key lookup in an object's field list (first match). -/
def lookupField : List (String × JVal) → String → Option JVal
  | [], _ => none
  | (k1, v) :: bs, k => if k1 = k then some v else lookupField bs k

/-- Top-level key lookup in a JSON value. -/
def JVal.lookupKey : JVal → String → Option JVal
  | JVal.obj fields, k => lookupField fields k
  | _, _ => none

/-! ## Configuration-document data model (`internal/schema2`) -/

/-- A SCSI attachment (path and type) as placed in the document. -/
structure Attachment where
  path : String
  type_ : String
deriving Repr, DecidableEq

/-- One SCSI controller's attachments, keyed by slot string. -/
structure Scsi where
  attachments : List (String × Attachment)
deriving Repr, DecidableEq

/-- Modelled from the spec: VSMB share options; only the flags this
pipeline manipulates (read-only, backup privilege, the saveable
persistence attributes) are represented. -/
structure VirtualSmbShareOptions where
  readOnly : Bool
  takeBackupPrivilege : Bool
  saveable : Bool
deriving Repr, DecidableEq

structure VirtualSmbShare where
  name : String
  path : String
  options : VirtualSmbShareOptions
deriving Repr, DecidableEq

structure VirtualSmb where
  directFileMappingInMB : Int
  shares : List VirtualSmbShare
deriving Repr, DecidableEq

structure Devices where
  hvSocketDefaultBindSecurityDescriptor : String
  virtualSmb : VirtualSmb
  scsi : Option (List (String × Scsi))
deriving Repr, DecidableEq

structure Memory2 where
  sizeInMB : Int
  allowOvercommit : Bool
  enableHotHint : Bool
  enableDeferredCommit : Bool
  lowMMIOGapInMB : Int
  highMMIOBaseInMB : Int
  highMMIOGapInMB : Int
deriving Repr, DecidableEq

structure Processor2 where
  count : Int
  limit : Int
  weight : Int
deriving Repr, DecidableEq

structure StorageQoS where
  iopsMaximum : Int
  bandwidthMaximum : Int
deriving Repr, DecidableEq

structure VirtualMachine where
  stopOnReset : Bool
  uefiBootDevicePath : String
  uefiBootDeviceType : String
  memory : Memory2
  processor : Processor2
  devices : Devices
  /-- `true` when the in-document guest-connection marker is present. -/
  guestConnection : Bool
  storageQoS : Option StorageQoS
  /-- The restore-state block's template system id, when present. -/
  restoreStateTemplateSystemId : Option String
deriving Repr, DecidableEq

structure ComputeSystem where
  owner : String
  schemaVersionMajor : Nat
  schemaVersionMinor : Nat
  shouldTerminateOnLastHandleClosed : Bool
  virtualMachine : VirtualMachine
deriving Repr, DecidableEq

/-! ## UtilityVM handle state -/

structure SCSIMount where
  hostPath : String
  refCount : Int
deriving Repr, DecidableEq

structure NicInfo where
  endpointID : String
deriving Repr, DecidableEq

structure NamespaceInfo where
  nics : List (String × NicInfo)
deriving Repr, DecidableEq

/-- A hypervisor-socket address: (VM runtime id, service id). -/
structure HvsockAddr where
  vmID : String
  serviceID : String
deriving Repr, DecidableEq

/-- The in-memory `UtilityVM` handle; the SCSI slot table is the
association list from (controller, slot) to the mounted disk. -/
structure UVMState where
  id : String
  owner : String
  operatingSystem : String
  scsiControllerCount : Nat
  processorCount : Int
  physicallyBacked : Bool
  devicesPhysicallyBacked : Bool
  scsiLocations : List ((Nat × Nat) × SCSIMount)
  namespaces : Option (List (String × NamespaceInfo))
  isClone : Bool
  runtimeID : String
  gcListener : Option HvsockAddr
deriving Repr, DecidableEq

/-- Slot-table lookup at a (controller, slot) location. -/
def lookupSlot (table : List ((Nat × Nat) × SCSIMount)) (loc : Nat × Nat) :
    Option SCSIMount :=
  match table with
  | [] => none
  | (l, m) :: rest => if l = loc then some m else lookupSlot rest loc

/-- Modelled from the spec: a cloneable resource recorded on a template
(the `Clone` implementations live outside src/). Replaying the resource
may fail (`res`); on success it augments the devices section of the target
document and performs in-memory bookkeeping on the target VM handle.
`rid` identifies the resource in the call trace. -/
structure CloneableResource where
  rid : String
  res : Except String Unit
  docEffect : Devices → Devices
  uvmEffect : UVMState → UVMState

/-- The immutable template snapshot: template VM id plus the ordered list
of cloneable resources. -/
structure UVMTemplateConfig where
  uvmID : String
  resources : List CloneableResource

/-- The options passed to `CreateWCOW` (fields this pipeline reads). -/
structure OptionsWCOW where
  id : String
  owner : String
  processorCount : Int
  processorLimit : Int
  processorWeight : Int
  memorySizeInMB : Int
  allowOvercommit : Bool
  enableDeferredCommit : Bool
  lowMMIOGapInMB : Int
  highMMIOBaseInMB : Int
  highMMIOGapInMB : Int
  fullyPhysicallyBacked : Bool
  externalGuestConnection : Bool
  storageQoSIopsMaximum : Int
  storageQoSBandwidthMaximum : Int
  additionHCSDocumentJSON : Option JVal
  layerFolders : List String
  isTemplate : Bool
  isClone : Bool
  templateConfig : Option UVMTemplateConfig

/-! ## External environment, filesystem and call trace -/

/-- The filesystem, as the set of paths that exist. -/
structure FS where
  paths : List String
deriving Repr, DecidableEq

def fsExists (fs : FS) (p : String) : Bool := fs.paths.contains p

def fsAdd (fs : FS) (p : String) : FS := ⟨p :: fs.paths⟩

/-- `filepath.Join` of two components, Windows separator. -/
def joinPath (a b : String) : String := a ++ "\\" ++ b

/-- The outcomes of the external collaborator calls `CreateWCOW` makes. -/
structure Env where
  newGuid : String
  hostLogicalProcessorCount : Except String Int
  locateUVMFolder : Except String String
  fs : FS
  mkdirAll : Except String Unit
  createScratch : Except String Unit
  create : Except String Unit
  runtimeID : String
  listen : Except String Unit

/-- Observable external calls made during VM creation, in order. -/
inductive Event where
  | mkdirAll (path : String)
  | createUVMScratch (uvmFolder scratchFolder vmID : String)
  | cloneReplay (rid : String)
  | submit
  | startGcsListener (vmID serviceID : String)
  | uvmClose
deriving Repr, DecidableEq

/-- Modelled from the spec: the fixed well-known GCS hvsock service
identifier (`gcs.WindowsGcsHvsockServiceID`, not under src/). -/
def WindowsGcsHvsockServiceID : String := "WindowsGcsHvsockServiceID"

/-- Modelled from the spec: the default clone network namespace id
(`hns.CLONING_DEFAULT_NETWORK_NAMESPACE_ID`, not under src/). -/
def CLONING_DEFAULT_NETWORK_NAMESPACE_ID : String :=
  "CLONING-DEFAULT-NETWORK-NAMESPACE-ID"

/-! ## Spec-modelled option resolution helpers -/

/-- Modelled from the spec: `verifyOptions` (not under src/) fails with a
validation error when option combinations are structurally invalid —
a missing layer-folder list, or clone mode without a template config. -/
def verifyOptions (opts : OptionsWCOW) : Except String Unit :=
  if opts.layerFolders.isEmpty then
    Except.error "missing layer folders"
  else if opts.isClone && opts.templateConfig.isNone then
    Except.error "clone mode requested without a template config"
  else Except.ok ()

/-- Modelled from the spec: `normalizeProcessorCount` (not under src/)
silently clamps a requested count exceeding the host's logical processor
count down to the host capacity. -/
def normalizeProcessorCount (requested hostCount : Int) : Int :=
  if requested > hostCount then hostCount else requested

/-- Modelled from the spec: `normalizeMemorySize` (not under src/) rounds
the requested size up to the host's required alignment unit (2 MB). -/
def normalizeMemorySize (m : Int) : Int :=
  if m % 2 == 1 then m + 1 else m

/-- Modelled from the spec: `DefaultVSMBOptions` produces the default
shared-folder options for a read-only flag. -/
def DefaultVSMBOptions (readOnly : Bool) : VirtualSmbShareOptions :=
  { readOnly := readOnly, takeBackupPrivilege := false, saveable := false }

/-- Modelled from the spec: `SetSaveableVSMBOptions` marks share options
as saveable (adjusts the persistence attributes). -/
def SetSaveableVSMBOptions (o : VirtualSmbShareOptions) : VirtualSmbShareOptions :=
  { o with saveable := true }

/-! ## Scratch provisioning (`getScratchFolder` and the scratch-disk step) -/

/-- `getScratchFolder`: the scratch folder is the last entry of
`LayerFolders`; if it does not exist it is created with `MkdirAll`. -/
def getScratchFolder (opts : OptionsWCOW) (fs : FS) (mkdirRes : Except String Unit) :
    (Except String (String × FS)) × List Event :=
  let scratchFolder := opts.layerFolders.getLastD ""
  if fsExists fs scratchFolder then
    (Except.ok (scratchFolder, fs), [])
  else
    match mkdirRes with
    | Except.error e =>
        (Except.error ("failed to create utility VM scratch folder: " ++ e),
         [Event.mkdirAll scratchFolder])
    | Except.ok _ =>
        (Except.ok (scratchFolder, fsAdd fs scratchFolder),
         [Event.mkdirAll scratchFolder])

/-- The non-clone scratch-disk step of `CreateWCOW`: if
`<scratchFolder>\sandbox.vhdx` does not exist, create it with
`wcow.CreateUVMScratch`. -/
def ensureScratchDisk (env : Env) (uvmFolder scratchFolder vmID : String) (fs : FS) :
    (Except String FS) × List Event :=
  let scratchPath := joinPath scratchFolder "sandbox.vhdx"
  if fsExists fs scratchPath then
    (Except.ok fs, [])
  else
    match env.createScratch with
    | Except.error e =>
        (Except.error ("failed to create scratch: " ++ e),
         [Event.createUVMScratch uvmFolder scratchFolder vmID])
    | Except.ok _ =>
        (Except.ok (fsAdd fs scratchPath),
         [Event.createUVMScratch uvmFolder scratchFolder vmID])

/-- The composite scratch provisioning step of the non-clone path:
locate/create the scratch folder, then create the scratch disk file if it
is not already present. -/
def provisionScratch (env : Env) (opts : OptionsWCOW) (uvmFolder : String) (fs : FS) :
    (Except String (String × FS)) × List Event :=
  match getScratchFolder opts fs env.mkdirAll with
  | (Except.error e, ev) => (Except.error e, ev)
  | (Except.ok (sf, fs1), ev1) =>
    match ensureScratchDisk env uvmFolder sf opts.id fs1 with
    | (Except.error e, ev2) => (Except.error e, ev1 ++ ev2)
    | (Except.ok fs2, ev2) => (Except.ok (sf, fs2), ev1 ++ ev2)

/-! ## `prepareConfigDoc` -/

/-- The fresh `UtilityVM` handle allocated at the top of `CreateWCOW`. -/
def initUVM (opts : OptionsWCOW) : UVMState :=
  { id := opts.id
    owner := opts.owner
    operatingSystem := "windows"
    scsiControllerCount := 1
    processorCount := 0
    physicallyBacked := !opts.allowOvercommit
    devicesPhysicallyBacked := opts.fullyPhysicallyBacked
    scsiLocations := []
    namespaces := none
    isClone := false
    runtimeID := ""
    gcListener := none }

/-- `prepareConfigDoc`: resolve processor and memory against the host,
then build the structured configuration document. -/
def prepareConfigDoc (env : Env) (uvm : UVMState) (opts : OptionsWCOW)
    (uvmFolder : String) : Except String (ComputeSystem × UVMState) :=
  match env.hostLogicalProcessorCount with
  | Except.error e =>
      Except.error ("failed to get host processor information: " ++ e)
  | Except.ok logicalCount =>
    let pc := normalizeProcessorCount opts.processorCount logicalCount
    let uvm1 := { uvm with processorCount := pc }
    let memorySizeInMB := normalizeMemorySize opts.memorySizeInMB
    let vsmbOpts := { DefaultVSMBOptions true with takeBackupPrivilege := true }
    let doc : ComputeSystem :=
      { owner := uvm.owner
        schemaVersionMajor := 2
        schemaVersionMinor := 1
        shouldTerminateOnLastHandleClosed := true
        virtualMachine :=
          { stopOnReset := true
            uefiBootDevicePath := "\\EFI\\Microsoft\\Boot\\bootmgfw.efi"
            uefiBootDeviceType := "VmbFs"
            memory :=
              { sizeInMB := memorySizeInMB
                allowOvercommit := opts.allowOvercommit
                enableHotHint := opts.allowOvercommit
                enableDeferredCommit := opts.enableDeferredCommit
                lowMMIOGapInMB := opts.lowMMIOGapInMB
                highMMIOBaseInMB := opts.highMMIOBaseInMB
                highMMIOGapInMB := opts.highMMIOGapInMB }
            processor :=
              { count := pc
                limit := opts.processorLimit
                weight := opts.processorWeight }
            devices :=
              { hvSocketDefaultBindSecurityDescriptor :=
                  "D:P(A;;FA;;;SY)(A;;FA;;;BA)"
                virtualSmb :=
                  { directFileMappingInMB := 1024
                    shares :=
                      [{ name := "os"
                         path := joinPath uvmFolder "UtilityVM\\Files"
                         options := vsmbOpts }] }
                scsi := none }
            guestConnection := !opts.externalGuestConnection
            storageQoS :=
              if opts.storageQoSBandwidthMaximum > 0 ||
                  opts.storageQoSIopsMaximum > 0 then
                some { iopsMaximum := opts.storageQoSIopsMaximum
                       bandwidthMaximum := opts.storageQoSBandwidthMaximum }
              else none
            restoreStateTemplateSystemId := none } }
    Except.ok (doc, uvm1)

/-! ## Clone replay -/

/-- Replay the template's cloneable resources in recorded order, stopping
at the first failure. -/
def replayAll : List CloneableResource → UVMState → Devices →
    (Except String (UVMState × Devices)) × List Event
  | [], uvm, devs => (Except.ok (uvm, devs), [])
  | r :: rs, uvm, devs =>
    match r.res with
    | Except.error e => (Except.error e, [Event.cloneReplay r.rid])
    | Except.ok _ =>
      match replayAll rs (r.uvmEffect uvm) (r.docEffect devs) with
      | (out, ev) => (out, Event.cloneReplay r.rid :: ev)

/-- Map assignment on the namespace map. -/
def setNamespace : List (String × NamespaceInfo) → String → NamespaceInfo →
    List (String × NamespaceInfo)
  | [], k, v => [(k, v)]
  | (k1, v1) :: m, k, v =>
      if k1 = k then (k1, v) :: m else (k1, v1) :: setNamespace m k v

/-- After replay, seed the default clone network namespace entry. -/
def addDefaultCloneNamespace (ns : Option (List (String × NamespaceInfo))) :
    List (String × NamespaceInfo) :=
  setNamespace (ns.getD []) CLONING_DEFAULT_NETWORK_NAMESPACE_ID { nics := [] }

/-! ## Template VSMB options, merge input encoding -/

/-- `IsTemplate` handling: mark every VSMB share's options saveable. -/
def applySaveable (doc : ComputeSystem) : ComputeSystem :=
  { doc with
      virtualMachine.devices.virtualSmb.shares :=
        doc.virtualMachine.devices.virtualSmb.shares.map
          (fun sh => { sh with options := SetSaveableVSMBOptions sh.options }) }

def attachmentToJSON (a : Attachment) : JVal :=
  JVal.obj [("Path", JVal.str a.path), ("Type", JVal.str a.type_)]

def scsiToJSON (s : Scsi) : JVal :=
  JVal.obj [("Attachments",
    JVal.obj (s.attachments.map (fun kv => (kv.1, attachmentToJSON kv.2))))]

def shareOptionsToJSON (o : VirtualSmbShareOptions) : JVal :=
  JVal.obj [("ReadOnly", JVal.bool o.readOnly),
            ("TakeBackupPrivilege", JVal.bool o.takeBackupPrivilege),
            ("Saveable", JVal.bool o.saveable)]

def shareToJSON (sh : VirtualSmbShare) : JVal :=
  JVal.obj [("Name", JVal.str sh.name), ("Path", JVal.str sh.path),
            ("Options", shareOptionsToJSON sh.options)]

def devicesToJSON (d : Devices) : JVal :=
  JVal.obj
    ([("HvSocket", JVal.obj [("HvSocketConfig",
        JVal.obj [("DefaultBindSecurityDescriptor",
          JVal.str d.hvSocketDefaultBindSecurityDescriptor)])]),
      ("VirtualSmb", JVal.obj
        [("DirectFileMappingInMB", JVal.num d.virtualSmb.directFileMappingInMB),
         ("Shares", JVal.arr (d.virtualSmb.shares.map shareToJSON))])] ++
     (match d.scsi with
      | none => []
      | some cs => [("Scsi", JVal.obj (cs.map (fun kv => (kv.1, scsiToJSON kv.2))))]))

def vmToJSON (vm : VirtualMachine) : JVal :=
  JVal.obj
    ([("StopOnReset", JVal.bool vm.stopOnReset),
      ("Chipset", JVal.obj [("Uefi", JVal.obj [("BootThis",
        JVal.obj [("DevicePath", JVal.str vm.uefiBootDevicePath),
                  ("DeviceType", JVal.str vm.uefiBootDeviceType)])])]),
      ("ComputeTopology", JVal.obj
        [("Memory", JVal.obj
           [("SizeInMB", JVal.num vm.memory.sizeInMB),
            ("AllowOvercommit", JVal.bool vm.memory.allowOvercommit),
            ("EnableHotHint", JVal.bool vm.memory.enableHotHint),
            ("EnableDeferredCommit", JVal.bool vm.memory.enableDeferredCommit),
            ("LowMMIOGapInMB", JVal.num vm.memory.lowMMIOGapInMB),
            ("HighMMIOBaseInMB", JVal.num vm.memory.highMMIOBaseInMB),
            ("HighMMIOGapInMB", JVal.num vm.memory.highMMIOGapInMB)]),
         ("Processor", JVal.obj
           [("Count", JVal.num vm.processor.count),
            ("Limit", JVal.num vm.processor.limit),
            ("Weight", JVal.num vm.processor.weight)])]),
      ("Devices", devicesToJSON vm.devices)] ++
     (if vm.guestConnection then [("GuestConnection", JVal.obj [])] else []) ++
     (match vm.storageQoS with
      | none => []
      | some q => [("StorageQoS", JVal.obj
          [("IopsMaximum", JVal.num q.iopsMaximum),
           ("BandwidthMaximum", JVal.num q.bandwidthMaximum)])]) ++
     (match vm.restoreStateTemplateSystemId with
      | none => []
      | some tid => [("RestoreState",
          JVal.obj [("TemplateSystemId", JVal.str tid)])]))

/-- The JSON encoding of the built document, as handed to the merge. -/
def docToJSON (d : ComputeSystem) : JVal :=
  JVal.obj
    [("Owner", JVal.str d.owner),
     ("SchemaVersion", JVal.obj
       [("Major", JVal.num (Int.ofNat d.schemaVersionMajor)),
        ("Minor", JVal.num (Int.ofNat d.schemaVersionMinor))]),
     ("ShouldTerminateOnLastHandleClosed",
      JVal.bool d.shouldTerminateOnLastHandleClosed),
     ("VirtualMachine", vmToJSON d.virtualMachine)]

/-! ## `CreateWCOW` -/

/-- Generate an id when the caller passed none. -/
def resolveID (env : Env) (opts : OptionsWCOW) : OptionsWCOW :=
  if opts.id = "" then { opts with id := env.newGuid } else opts

/-- The creation pipeline up to and including the clone/non-clone branch:
options verification, locating the OS image folder, scratch-folder
provisioning, building the configuration document, then either the scratch
disk and slot (0,0) population or the full clone replay.  Returns the
handle under construction, the built document and the filesystem, with the
external-call trace; every error path ends with the handle's teardown. -/
def buildUVM (env : Env) (opts : OptionsWCOW) :
    (Except String (UVMState × ComputeSystem × FS)) × List Event :=
  match verifyOptions opts with
  | Except.error e => (Except.error ("bad OptionsWCOW: " ++ e), [Event.uvmClose])
  | Except.ok _ =>
  match env.locateUVMFolder with
  | Except.error e =>
      (Except.error
        ("failed to locate utility VM folder from layer folders: " ++ e),
       [Event.uvmClose])
  | Except.ok uvmFolder =>
  match getScratchFolder opts env.fs env.mkdirAll with
  | (Except.error e, ev) => (Except.error e, ev ++ [Event.uvmClose])
  | (Except.ok (scratchFolder, fs1), ev1) =>
  match prepareConfigDoc env (initUVM opts) opts uvmFolder with
  | Except.error e =>
      (Except.error ("Error in preparing config doc: " ++ e),
       ev1 ++ [Event.uvmClose])
  | Except.ok (doc, uvm1) =>
  if opts.isClone then
    match opts.templateConfig with
    | none =>
        (Except.error "clone requested without template config",
         ev1 ++ [Event.uvmClose])
    | some tc =>
      match replayAll tc.resources uvm1 doc.virtualMachine.devices with
      | (Except.error e, ev2) =>
          (Except.error ("Failed while cloning: " ++ e),
           ev1 ++ ev2 ++ [Event.uvmClose])
      | (Except.ok (uvm2, devs), ev2) =>
          (Except.ok
            ({ uvm2 with
                namespaces := some (addDefaultCloneNamespace uvm2.namespaces)
                isClone := true },
             { doc with
                 virtualMachine.restoreStateTemplateSystemId := some tc.uvmID
                 virtualMachine.devices := devs },
             fs1),
           ev1 ++ ev2)
  else
    match ensureScratchDisk env uvmFolder scratchFolder uvm1.id fs1 with
    | (Except.error e, ev2) => (Except.error e, ev1 ++ ev2 ++ [Event.uvmClose])
    | (Except.ok fs2, ev2) =>
        (Except.ok
          ({ uvm1 with
              scsiLocations :=
                [((0, 0),
                  { hostPath := joinPath scratchFolder "sandbox.vhdx",
                    refCount := 1 })] },
           { doc with
               virtualMachine.devices.scsi :=
                 some [("0",
                   { attachments :=
                       [("0",
                         { path := joinPath scratchFolder "sandbox.vhdx",
                           type_ := "VirtualDisk" })] })] },
           fs2),
         ev1 ++ ev2)

/-- The tail of `CreateWCOW`: template VSMB adjustments, the override
merge, document submission, and the conditional external GCS listener. -/
def finishCreate (env : Env) (opts : OptionsWCOW) (uvm : UVMState)
    (doc : ComputeSystem) :
    (Except String (UVMState × ComputeSystem × JVal)) × List Event :=
  match env.create with
  | Except.error e =>
      (Except.error ("error while creating the compute system: " ++ e),
       [Event.submit, Event.uvmClose])
  | Except.ok _ =>
    if opts.externalGuestConnection || opts.isClone then
      match env.listen with
      | Except.error e =>
          (Except.error e,
           [Event.submit,
            Event.startGcsListener env.runtimeID WindowsGcsHvsockServiceID,
            Event.uvmClose])
      | Except.ok _ =>
          (Except.ok
            ({ uvm with
                runtimeID := env.runtimeID
                gcListener := some { vmID := env.runtimeID, serviceID := WindowsGcsHvsockServiceID } },
             (if opts.isTemplate then applySaveable doc else doc),
             MergeJSON (docToJSON (if opts.isTemplate then applySaveable doc else doc))
               opts.additionHCSDocumentJSON),
           [Event.submit,
            Event.startGcsListener env.runtimeID WindowsGcsHvsockServiceID])
    else
      (Except.ok
        ({ uvm with runtimeID := env.runtimeID },
         (if opts.isTemplate then applySaveable doc else doc),
         MergeJSON (docToJSON (if opts.isTemplate then applySaveable doc else doc))
           opts.additionHCSDocumentJSON),
       [Event.submit])

/-- `CreateWCOW`: the full creation pipeline.  On success it returns the
`UtilityVM` handle, the built configuration document and the merged JSON
finally submitted to the host service, together with the trace of external
calls made. -/
def CreateWCOW (env : Env) (opts0 : OptionsWCOW) :
    (Except String (UVMState × ComputeSystem × JVal)) × List Event :=
  match buildUVM env (resolveID env opts0) with
  | (Except.error e, ev) => (Except.error e, ev)
  | (Except.ok (uvm, doc, _fs), ev) =>
    ((finishCreate env (resolveID env opts0) uvm doc).1,
     ev ++ (finishCreate env (resolveID env opts0) uvm doc).2)

/-- The ordered clone-replay calls recorded in a trace. -/
def cloneReplayIDs (tr : List Event) : List String :=
  tr.filterMap (fun e =>
    match e with
    | Event.cloneReplay r => some r
    | _ => none)

/-! ## Network namespace provisioning (`internal/hcsoci/network.go`) -/

/-- An HNS endpoint descriptor (only the id is relevant here). -/
structure HNSEndpoint where
  id : String
deriving Repr, DecidableEq

/-- Observable network control-plane and VM calls, in order. -/
inductive NetEvent where
  | createNamespace
  | addNamespaceEndpoint (netID endpointID : String)
  | getNamespaceEndpoints (nsid : String)
  | getEndpointByID (endpointID : String)
  | addNetNS (nsid : String)
  | addEndpointsToNS (nsid : String)
  | removeNetNS (nsid : String)
deriving Repr, DecidableEq

/-- Outcomes of the external network calls. -/
structure NetEnv where
  createNamespace : Except String String
  addNamespaceEndpoint : String → String → Except String Unit
  getNamespaceEndpoints : String → Except String (List String)
  getEndpointByID : String → Except String HNSEndpoint
  addNetNS : String → Except String Unit
  addEndpointsToNS : String → List HNSEndpoint → Except String Unit
  removeNetNS : String → Except String Unit

/-- The `uvm.NetworkEndpoints` resource recorded for later teardown. -/
structure NetworkEndpoints where
  endpointIDs : List String
  namespaceID : String
deriving Repr, DecidableEq

/-- The container's recorded-resource state mutated by
`createNetworkNamespace`. -/
structure Resources where
  netNS : String
  createdNetNS : Bool
  resources : List NetworkEndpoints
deriving Repr, DecidableEq

/-- The bind loop of `createNetworkNamespace`: add each endpoint to the
namespace in list order, accumulating the ids bound so far. -/
def addEndpointsLoop (env : NetEnv) (netID : String) :
    List String → List String → (Except String (List String)) × List NetEvent
  | [], acc => (Except.ok acc, [])
  | eid :: rest, acc =>
    match env.addNamespaceEndpoint netID eid with
    | Except.error e => (Except.error e, [NetEvent.addNamespaceEndpoint netID eid])
    | Except.ok _ =>
      match addEndpointsLoop env netID rest (acc ++ [eid]) with
      | (r, ev) => (r, NetEvent.addNamespaceEndpoint netID eid :: ev)

/-- `createNetworkNamespace`: allocate a fresh namespace, record it on the
resources, bind every endpoint of the container's endpoint list in order
(returning the first bind error immediately), and only on full success
append one `NetworkEndpoints` entry to the recorded resource list. -/
def createNetworkNamespace (env : NetEnv) (endpointList : List String)
    (resources : Resources) :
    Resources × (Except String Unit) × List NetEvent :=
  match env.createNamespace with
  | Except.error e => (resources, Except.error e, [NetEvent.createNamespace])
  | Except.ok netID =>
    let res1 := { resources with netNS := netID, createdNetNS := true }
    match addEndpointsLoop env netID endpointList [] with
    | (Except.error e, ev) =>
        (res1, Except.error e, NetEvent.createNamespace :: ev)
    | (Except.ok endpoints, ev) =>
        ({ res1 with
            resources := res1.resources ++
              [{ endpointIDs := endpoints, namespaceID := netID }] },
         Except.ok (), NetEvent.createNamespace :: ev)

/-- Resolve each endpoint id to its full descriptor, failing fast. -/
def resolveEndpoints (env : NetEnv) :
    List String → (Except String (List HNSEndpoint)) × List NetEvent
  | [] => (Except.ok [], [])
  | eid :: rest =>
    match env.getEndpointByID eid with
    | Except.error e => (Except.error e, [NetEvent.getEndpointByID eid])
    | Except.ok ep =>
      match resolveEndpoints env rest with
      | (Except.error e, ev) =>
          (Except.error e, NetEvent.getEndpointByID eid :: ev)
      | (Except.ok eps, ev) =>
          (Except.ok (ep :: eps), NetEvent.getEndpointByID eid :: ev)

/-- `GetNamespaceEndpoints`: list the namespace's endpoint ids, then
resolve each one. -/
def GetNamespaceEndpoints (env : NetEnv) (netNS : String) :
    (Except String (List HNSEndpoint)) × List NetEvent :=
  match env.getNamespaceEndpoints netNS with
  | Except.error e => (Except.error e, [NetEvent.getNamespaceEndpoints netNS])
  | Except.ok ids =>
    match resolveEndpoints env ids with
    | (r, ev) => (r, NetEvent.getNamespaceEndpoints netNS :: ev)

/-- `SetupNetworkNamespace`: fetch the namespace's endpoints, attach the
namespace into the VM, then attach the endpoints into it; on
endpoint-attach failure a best-effort namespace-remove call is issued
(its result discarded) and the endpoint-attach error is returned. -/
def SetupNetworkNamespace (env : NetEnv) (nsid : String) :
    (Except String Unit) × List NetEvent :=
  match GetNamespaceEndpoints env nsid with
  | (Except.error e, ev) => (Except.error e, ev)
  | (Except.ok endpoints, ev) =>
    match env.addNetNS nsid with
    | Except.error e => (Except.error e, ev ++ [NetEvent.addNetNS nsid])
    | Except.ok _ =>
      match env.addEndpointsToNS nsid endpoints with
      | Except.error e =>
          (Except.error e,
           ev ++ [NetEvent.addNetNS nsid, NetEvent.addEndpointsToNS nsid,
                  NetEvent.removeNetNS nsid])
      | Except.ok _ =>
          (Except.ok (),
           ev ++ [NetEvent.addNetNS nsid, NetEvent.addEndpointsToNS nsid])

/-! ## Theorems: network namespace provisioning -/

/-- C3: for every invocation of `SetupNetworkNamespace` in which the
namespace-attach call succeeds and the endpoint-attach call fails, a
namespace-remove call is issued on the same namespace id and the function
returns exactly the endpoint-attach error; the rollback call's own outcome
is never consulted, so a rollback error is never propagated. -/
theorem C3_setup_namespace_rollback_returns_attach_error
    (env : NetEnv) (nsid : String) (eps : List HNSEndpoint)
    (ev0 : List NetEvent) (err : String)
    (hget : GetNamespaceEndpoints env nsid = (Except.ok eps, ev0))
    (hadd : env.addNetNS nsid = Except.ok ())
    (hfail : env.addEndpointsToNS nsid eps = Except.error err) :
    SetupNetworkNamespace env nsid =
      (Except.error err,
       ev0 ++ [NetEvent.addNetNS nsid, NetEvent.addEndpointsToNS nsid,
               NetEvent.removeNetNS nsid]) ∧
    NetEvent.removeNetNS nsid ∈ (SetupNetworkNamespace env nsid).2 := by
  have hmain : SetupNetworkNamespace env nsid =
      (Except.error err,
       ev0 ++ [NetEvent.addNetNS nsid, NetEvent.addEndpointsToNS nsid,
               NetEvent.removeNetNS nsid]) := by
    unfold SetupNetworkNamespace
    simp only [hget, hadd, hfail]
  refine ⟨hmain, ?_⟩
  rw [hmain]
  simp

/-- A network environment where endpoint attachment into the VM fails and
the rollback call itself also fails. -/
def netEnvAttachFail : NetEnv :=
  { createNamespace := Except.ok "ns0"
    addNamespaceEndpoint := fun _ _ => Except.ok ()
    getNamespaceEndpoints := fun _ => Except.ok ["epA"]
    getEndpointByID := fun e => Except.ok { id := e }
    addNetNS := fun _ => Except.ok ()
    addEndpointsToNS := fun _ _ => Except.error "endpoint attach failed"
    removeNetNS := fun _ => Except.error "rollback failed" }

theorem C3_setup_namespace_rollback_witness :
    SetupNetworkNamespace netEnvAttachFail "ns1" =
      (Except.error "endpoint attach failed",
       [NetEvent.getNamespaceEndpoints "ns1", NetEvent.getEndpointByID "epA",
        NetEvent.addNetNS "ns1", NetEvent.addEndpointsToNS "ns1",
        NetEvent.removeNetNS "ns1"]) ∧
    NetEvent.removeNetNS "ns1" ∈ (SetupNetworkNamespace netEnvAttachFail "ns1").2 :=
  C3_setup_namespace_rollback_returns_attach_error netEnvAttachFail "ns1"
    [{ id := "epA" }]
    [NetEvent.getNamespaceEndpoints "ns1", NetEvent.getEndpointByID "epA"]
    "endpoint attach failed" rfl rfl rfl

/-- The bind loop succeeds on every endpoint: all are bound in order. -/
theorem addEndpointsLoop_ok (env : NetEnv) (netID : String)
    (l : List String) (acc : List String)
    (h : ∀ e ∈ l, env.addNamespaceEndpoint netID e = Except.ok ()) :
    addEndpointsLoop env netID l acc =
      (Except.ok (acc ++ l), l.map (NetEvent.addNamespaceEndpoint netID)) := by
  induction l generalizing acc with
  | nil => simp [addEndpointsLoop]
  | cons e rest ih =>
    have he : env.addNamespaceEndpoint netID e = Except.ok () := h e (by simp)
    have hrest : ∀ x ∈ rest, env.addNamespaceEndpoint netID x = Except.ok () :=
      fun x hx => h x (by simp [hx])
    simp [addEndpointsLoop, he, ih (acc ++ [e]) hrest]

/-- The bind loop stops at the first failing endpoint and returns its
error. -/
theorem addEndpointsLoop_fail (env : NetEnv) (netID : String)
    (pre : List String) (eid : String) (rest : List String)
    (acc : List String) (err : String)
    (hpre : ∀ e ∈ pre, env.addNamespaceEndpoint netID e = Except.ok ())
    (hfail : env.addNamespaceEndpoint netID eid = Except.error err) :
    addEndpointsLoop env netID (pre ++ eid :: rest) acc =
      (Except.error err,
       (pre ++ [eid]).map (NetEvent.addNamespaceEndpoint netID)) := by
  induction pre generalizing acc with
  | nil => simp [addEndpointsLoop, hfail]
  | cons e pre1 ih =>
    have he : env.addNamespaceEndpoint netID e = Except.ok () := hpre e (by simp)
    have hpre1 : ∀ x ∈ pre1, env.addNamespaceEndpoint netID x = Except.ok () :=
      fun x hx => hpre x (by simp [hx])
    simp [addEndpointsLoop, he, ih (acc ++ [e]) hpre1]

/-- C6: `createNetworkNamespace` binds the endpoints into the fresh
namespace in list order; on the first bind failure it returns that error
immediately, makes no rollback calls and records no `NetworkEndpoints`
resource; on full success it appends exactly one `NetworkEndpoints`
resource holding the namespace id and all endpoint ids. -/
theorem C6_create_network_namespace_binds_in_order :
    (∀ (env : NetEnv) (netID : String) (pre : List String) (eid : String)
        (rest : List String) (err : String) (rs : Resources),
      env.createNamespace = Except.ok netID →
      (∀ e ∈ pre, env.addNamespaceEndpoint netID e = Except.ok ()) →
      env.addNamespaceEndpoint netID eid = Except.error err →
      createNetworkNamespace env (pre ++ eid :: rest) rs =
        ({ rs with netNS := netID, createdNetNS := true },
         Except.error err,
         NetEvent.createNamespace ::
           (pre ++ [eid]).map (NetEvent.addNamespaceEndpoint netID))) ∧
    (∀ (env : NetEnv) (netID : String) (l : List String) (rs : Resources),
      env.createNamespace = Except.ok netID →
      (∀ e ∈ l, env.addNamespaceEndpoint netID e = Except.ok ()) →
      createNetworkNamespace env l rs =
        ({ rs with
            netNS := netID
            createdNetNS := true
            resources := rs.resources ++
              [{ endpointIDs := l, namespaceID := netID }] },
         Except.ok (),
         NetEvent.createNamespace ::
           l.map (NetEvent.addNamespaceEndpoint netID))) := by
  constructor
  · intro env netID pre eid rest err rs hcr hpre hfail
    unfold createNetworkNamespace
    simp only [hcr, addEndpointsLoop_fail env netID pre eid rest [] err hpre hfail]
  · intro env netID l rs hcr hall
    unfold createNetworkNamespace
    simp only [hcr, addEndpointsLoop_ok env netID l [] hall]
    simp

/-- A network environment where binding endpoint B fails. -/
def netEnvBindBFail : NetEnv :=
  { createNamespace := Except.ok "ns9"
    addNamespaceEndpoint := fun _ e =>
      if e = "B" then Except.error "bind failed" else Except.ok ()
    getNamespaceEndpoints := fun _ => Except.ok []
    getEndpointByID := fun e => Except.ok { id := e }
    addNetNS := fun _ => Except.ok ()
    addEndpointsToNS := fun _ _ => Except.ok ()
    removeNetNS := fun _ => Except.ok () }

theorem C6_create_network_namespace_witness :
    createNetworkNamespace netEnvBindBFail ["A", "B"]
        { netNS := "", createdNetNS := false, resources := [] } =
      ({ netNS := "ns9", createdNetNS := true, resources := [] },
       Except.error "bind failed",
       [NetEvent.createNamespace,
        NetEvent.addNamespaceEndpoint "ns9" "A",
        NetEvent.addNamespaceEndpoint "ns9" "B"]) ∧
    createNetworkNamespace netEnvBindBFail ["A", "C"]
        { netNS := "", createdNetNS := false, resources := [] } =
      ({ netNS := "ns9", createdNetNS := true,
         resources := [{ endpointIDs := ["A", "C"], namespaceID := "ns9" }] },
       Except.ok (),
       [NetEvent.createNamespace,
        NetEvent.addNamespaceEndpoint "ns9" "A",
        NetEvent.addNamespaceEndpoint "ns9" "C"]) := by
  constructor
  · exact C6_create_network_namespace_binds_in_order.1 netEnvBindBFail "ns9"
      ["A"] "B" [] "bind failed"
      { netNS := "", createdNetNS := false, resources := [] }
      rfl (by intro e he; simp at he; subst he; rfl) rfl
  · exact C6_create_network_namespace_binds_in_order.2 netEnvBindBFail "ns9"
      ["A", "C"] { netNS := "", createdNetNS := false, resources := [] }
      rfl (by intro e he; simp at he; rcases he with rfl | rfl <;> rfl)

/-! ## Theorems: processor normalization and storage QoS -/

/-- A benign concrete option set used by witnesses. -/
def sampleOpts : OptionsWCOW :=
  { id := "vm1", owner := "ow", processorCount := 64, processorLimit := 0,
    processorWeight := 0, memorySizeInMB := 1024, allowOvercommit := true,
    enableDeferredCommit := false, lowMMIOGapInMB := 0, highMMIOBaseInMB := 0,
    highMMIOGapInMB := 0, fullyPhysicallyBacked := false,
    externalGuestConnection := false, storageQoSIopsMaximum := 0,
    storageQoSBandwidthMaximum := 0, additionHCSDocumentJSON := none,
    layerFolders := ["layer1", "scratchDir"], isTemplate := false,
    isClone := false, templateConfig := none }

/-- A benign concrete environment (4 logical processors, all calls
succeed, empty filesystem) used by witnesses. -/
def sampleEnv : Env :=
  { newGuid := "guid", hostLogicalProcessorCount := Except.ok 4,
    locateUVMFolder := Except.ok "uvmFolder", fs := ⟨[]⟩,
    mkdirAll := Except.ok (), createScratch := Except.ok (),
    create := Except.ok (), runtimeID := "rt", listen := Except.ok () }

/-- C5: a requested processor count strictly greater than the host's
logical processor count is clamped: the count stored on the handle and
placed in the document's processor block equals the host count, and
`prepareConfigDoc` does not fail for this reason. -/
theorem C5_processor_count_clamped (env : Env) (uvm : UVMState)
    (opts : OptionsWCOW) (f : String) (n : Int)
    (hinfo : env.hostLogicalProcessorCount = Except.ok n)
    (hgt : opts.processorCount > n) :
    ∃ doc uvm1, prepareConfigDoc env uvm opts f = Except.ok (doc, uvm1) ∧
      uvm1.processorCount = n ∧ doc.virtualMachine.processor.count = n := by
  unfold prepareConfigDoc
  rw [hinfo]
  refine ⟨_, _, rfl, ?_, ?_⟩ <;> simp [normalizeProcessorCount, hgt]

theorem C5_processor_count_clamped_witness :
    ∃ doc uvm1,
      prepareConfigDoc sampleEnv (initUVM sampleOpts) sampleOpts "uvmFolder" =
        Except.ok (doc, uvm1) ∧
      uvm1.processorCount = 4 ∧ doc.virtualMachine.processor.count = 4 :=
  C5_processor_count_clamped sampleEnv (initUVM sampleOpts) sampleOpts
    "uvmFolder" 4 rfl (by decide)

/-- The options of `C9_counterexample_negative_iops`: a negative (hence
non-zero) requested IOPS maximum and a zero bandwidth maximum. -/
def optsQoSNeg : OptionsWCOW := { sampleOpts with storageQoSIopsMaximum := -1 }

/-- C9 counterexample: the claim says the storage-QoS block is present iff
the requested IOPS or bandwidth maximum is non-zero; at the concrete
request IOPS = -1 (non-zero), bandwidth = 0, the code omits the block. -/
theorem C9_counterexample_negative_iops :
    optsQoSNeg.storageQoSIopsMaximum ≠ 0 ∧
    ∃ doc uvm1,
      prepareConfigDoc sampleEnv (initUVM optsQoSNeg) optsQoSNeg "uvmFolder" =
        Except.ok (doc, uvm1) ∧
      doc.virtualMachine.storageQoS = none := by
  exact ⟨by decide, _, _, rfl, rfl⟩

/-- C9 (amended): the produced document contains a storage-QoS block iff
the requested IOPS maximum is strictly positive or the requested bandwidth
maximum is strictly positive; when present, the block carries exactly the
requested maxima. -/
theorem C9_storage_qos_block_iff_positive (env : Env) (uvm : UVMState)
    (opts : OptionsWCOW) (f : String) (n : Int)
    (hinfo : env.hostLogicalProcessorCount = Except.ok n) :
    ∃ doc uvm1, prepareConfigDoc env uvm opts f = Except.ok (doc, uvm1) ∧
      doc.virtualMachine.storageQoS =
        (if opts.storageQoSBandwidthMaximum > 0 ∨
            opts.storageQoSIopsMaximum > 0 then
          some { iopsMaximum := opts.storageQoSIopsMaximum,
                 bandwidthMaximum := opts.storageQoSBandwidthMaximum }
        else none) := by
  unfold prepareConfigDoc
  rw [hinfo]
  refine ⟨_, _, rfl, ?_⟩
  by_cases hb : opts.storageQoSBandwidthMaximum > 0 <;>
    by_cases hi : opts.storageQoSIopsMaximum > 0 <;>
      simp [hb, hi]

theorem C9_storage_qos_block_witness :
    ∃ doc uvm1,
      prepareConfigDoc sampleEnv (initUVM sampleOpts)
          { sampleOpts with storageQoSIopsMaximum := 7 } "uvmFolder" =
        Except.ok (doc, uvm1) ∧
      doc.virtualMachine.storageQoS =
        (if (7 : Int) > 0 ∨ (0 : Int) > 0 then
          some { iopsMaximum := 7, bandwidthMaximum := 0 }
        else none) := by
  have h := C9_storage_qos_block_iff_positive sampleEnv (initUVM sampleOpts)
    { sampleOpts with storageQoSIopsMaximum := 7 } "uvmFolder" 4 rfl
  simpa [sampleOpts] using h

/-! ## Theorems: document merge -/

/-- Merging an empty fragment object changes nothing. -/
theorem mergeFields_nil (bs : List (String × JVal)) : mergeFields bs [] = bs := by
  simp [mergeFields]

/-- Upserting a key that is absent appends it. -/
theorem upsertField_absent (bs : List (String × JVal)) (k : String) (fv : JVal)
    (h : lookupField bs k = none) :
    upsertField bs k fv = bs ++ [(k, fv)] := by
  induction bs with
  | nil => simp [upsertField]
  | cons b rest ih =>
    obtain ⟨k1, bv⟩ := b
    by_cases hk : k1 = k
    · simp [lookupField, hk] at h
    · simp only [lookupField, hk, if_false] at h
      simp [upsertField, hk, ih h]

/-- Upserting a different key preserves a key's binding. -/
theorem lookupField_upsert_ne (bs : List (String × JVal)) (k : String)
    (v : JVal) (kf : String) (fv : JVal) (hne : kf ≠ k)
    (h : lookupField bs k = some v) :
    lookupField (upsertField bs kf fv) k = some v := by
  induction bs with
  | nil => simp [lookupField] at h
  | cons b rest ih =>
    obtain ⟨k1, bv⟩ := b
    by_cases h1 : k1 = kf
    · subst h1
      have hk : ¬ k1 = k := fun hc => hne (hc ▸ rfl)
      simp only [lookupField, hk, if_false] at h
      simp [upsertField, lookupField, hk, h]
    · simp only [upsertField, h1, if_false]
      by_cases hk : k1 = k
      · simp only [lookupField, hk, if_true] at h ⊢
        exact h
      · simp only [lookupField, hk, if_false] at h ⊢
        exact ih h

/-- Folding in fragment fields whose keys differ from `k` preserves the
binding of `k`. -/
theorem lookupField_mergeFields (fs bs : List (String × JVal)) (k : String)
    (v : JVal) (h : lookupField bs k = some v)
    (hks : ∀ kv ∈ fs, kv.1 ≠ k) :
    lookupField (mergeFields bs fs) k = some v := by
  induction fs generalizing bs with
  | nil => simpa [mergeFields] using h
  | cons kv rest ih =>
    obtain ⟨kf, fv⟩ := kv
    have hkf : kf ≠ k := hks (kf, fv) (by simp)
    have hrest : ∀ kv ∈ rest, kv.1 ≠ k := fun x hx => hks x (by simp [hx])
    simp only [mergeFields]
    exact ih (upsertField bs kf fv)
      (lookupField_upsert_ne bs k v kf fv hkf h) hrest

/-- C8: merging an empty override fragment into a built configuration
document leaves it unchanged (both the absent fragment and the empty
object fragment), and merging a fragment whose top-level keys are all
absent from the document retains every previously set top-level key-value
pair. -/
theorem C8_merge_identity_and_preservation :
    (∀ d : ComputeSystem,
      MergeJSON (docToJSON d) none = docToJSON d ∧
      mergeJVal (docToJSON d) (JVal.obj []) = docToJSON d) ∧
    (∀ (d : ComputeSystem) (fs : List (String × JVal)),
      (∀ kv ∈ fs, (docToJSON d).lookupKey kv.1 = none) →
      ∀ k v, (docToJSON d).lookupKey k = some v →
        (mergeJVal (docToJSON d) (JVal.obj fs)).lookupKey k = some v) := by
  constructor
  · intro d
    constructor
    · rfl
    · show mergeJVal (JVal.obj _) (JVal.obj []) = _
      rw [mergeJVal, mergeFields_nil]
      rfl
  · intro d fs habsent k v hk
    have hne : ∀ kv ∈ fs, kv.1 ≠ k := by
      intro kv hkv hceq
      have h1 := habsent kv hkv
      rw [hceq] at h1
      rw [h1] at hk
      exact Option.noConfusion hk
    show (mergeJVal (JVal.obj _) (JVal.obj fs)).lookupKey k = some v
    simp only [mergeJVal, JVal.lookupKey]
    exact lookupField_mergeFields fs _ k v hk hne

/-- A trivial document, the fallback arm of `sampleDoc`. -/
def emptyDoc : ComputeSystem :=
  { owner := "", schemaVersionMajor := 0, schemaVersionMinor := 0,
    shouldTerminateOnLastHandleClosed := false,
    virtualMachine :=
      { stopOnReset := false, uefiBootDevicePath := "",
        uefiBootDeviceType := "",
        memory := { sizeInMB := 0, allowOvercommit := false,
                    enableHotHint := false, enableDeferredCommit := false,
                    lowMMIOGapInMB := 0, highMMIOBaseInMB := 0,
                    highMMIOGapInMB := 0 },
        processor := { count := 0, limit := 0, weight := 0 },
        devices := { hvSocketDefaultBindSecurityDescriptor := "",
                     virtualSmb := { directFileMappingInMB := 0, shares := [] },
                     scsi := none },
        guestConnection := false, storageQoS := none,
        restoreStateTemplateSystemId := none } }

/-- A concrete built document: the one `prepareConfigDoc` produces on the
sample inputs. -/
def sampleDoc : ComputeSystem :=
  match prepareConfigDoc sampleEnv (initUVM sampleOpts) sampleOpts "uvmFolder" with
  | Except.ok (d, _) => d
  | Except.error _ => emptyDoc

theorem C8_merge_witness :
    (MergeJSON (docToJSON sampleDoc) none = docToJSON sampleDoc ∧
     mergeJVal (docToJSON sampleDoc) (JVal.obj []) = docToJSON sampleDoc) ∧
    (mergeJVal (docToJSON sampleDoc)
        (JVal.obj [("Extra", JVal.num 1)])).lookupKey "Owner" =
      some (JVal.str "ow") := by
  refine ⟨C8_merge_identity_and_preservation.1 sampleDoc, ?_⟩
  refine C8_merge_identity_and_preservation.2 sampleDoc
    [("Extra", JVal.num 1)] ?_ "Owner" (JVal.str "ow") ?_
  · intro kv hkv
    simp at hkv
    rw [hkv]
    rfl
  · rfl

/-! ## Theorems: scratch provisioning idempotence -/

theorem fsExists_fsAdd_self (fs : FS) (p : String) :
    fsExists (fsAdd fs p) p = true := by
  simp [fsExists, fsAdd]

theorem fsExists_fsAdd_mono (fs : FS) (p q : String)
    (h : fsExists fs q = true) : fsExists (fsAdd fs p) q = true := by
  simp [fsExists, fsAdd] at h ⊢
  exact Or.inr h

/-- Facts about a successful `getScratchFolder` run: the returned folder
is the last layer folder, it exists afterwards, the filesystem only grows,
and the only calls made are directory creations. -/
theorem getScratchFolder_ok (opts : OptionsWCOW) (fs : FS)
    (mk : Except String Unit) (sf : String) (fs1 : FS) (ev : List Event)
    (h : getScratchFolder opts fs mk = (Except.ok (sf, fs1), ev)) :
    sf = opts.layerFolders.getLastD "" ∧ fsExists fs1 sf = true ∧
    (∀ q, fsExists fs q = true → fsExists fs1 q = true) ∧
    (∀ e ∈ ev, ∃ p, e = Event.mkdirAll p) := by
  simp only [getScratchFolder] at h
  split at h
  next hex =>
    simp only [Prod.mk.injEq, Except.ok.injEq] at h
    obtain ⟨⟨rfl, rfl⟩, rfl⟩ := h
    exact ⟨rfl, hex, fun q hq => hq, by simp⟩
  next hex =>
    split at h
    next e hmk => simp at h
    next u hmk =>
      simp only [Prod.mk.injEq, Except.ok.injEq] at h
      obtain ⟨⟨rfl, rfl⟩, rfl⟩ := h
      refine ⟨rfl, fsExists_fsAdd_self fs _, ?_, by simp⟩
      intro q hq
      exact fsExists_fsAdd_mono fs _ q hq

/-- When the folder already exists, `getScratchFolder` does nothing. -/
theorem getScratchFolder_skip (opts : OptionsWCOW) (fs : FS)
    (mk : Except String Unit)
    (hex : fsExists fs (opts.layerFolders.getLastD "") = true) :
    getScratchFolder opts fs mk =
      (Except.ok (opts.layerFolders.getLastD "", fs), []) := by
  simp only [getScratchFolder]
  rw [if_pos hex]

/-- Facts about a successful scratch-disk step: the disk file exists
afterwards, the filesystem only grows, and the only calls made are
scratch-disk creations. -/
theorem ensureScratchDisk_ok (env : Env) (f sf vmID : String) (fs fs2 : FS)
    (ev : List Event)
    (h : ensureScratchDisk env f sf vmID fs = (Except.ok fs2, ev)) :
    fsExists fs2 (joinPath sf "sandbox.vhdx") = true ∧
    (∀ q, fsExists fs q = true → fsExists fs2 q = true) ∧
    (∀ e ∈ ev, ∃ a b c, e = Event.createUVMScratch a b c) := by
  simp only [ensureScratchDisk] at h
  split at h
  next hex =>
    simp only [Prod.mk.injEq, Except.ok.injEq] at h
    obtain ⟨rfl, rfl⟩ := h
    exact ⟨hex, fun q hq => hq, by simp⟩
  next hex =>
    split at h
    next e hcs => simp at h
    next u hcs =>
      simp only [Prod.mk.injEq, Except.ok.injEq] at h
      obtain ⟨rfl, rfl⟩ := h
      refine ⟨fsExists_fsAdd_self fs _, ?_, by simp⟩
      intro q hq
      exact fsExists_fsAdd_mono fs _ q hq

/-- When the disk file already exists, the scratch-disk step does
nothing (the create-scratch call is skipped). -/
theorem ensureScratchDisk_skip (env : Env) (f sf vmID : String) (fs : FS)
    (hex : fsExists fs (joinPath sf "sandbox.vhdx") = true) :
    ensureScratchDisk env f sf vmID fs = (Except.ok fs, []) := by
  simp only [ensureScratchDisk]
  rw [if_pos hex]

/-- C7: scratch provisioning is idempotent — after one successful run, a
second run on the resulting filesystem succeeds, returns the same folder
and filesystem, and makes no external calls at all (in particular it
neither recreates the folder nor the sandbox.vhdx disk file). -/
theorem C7_provision_scratch_idempotent (env : Env) (opts : OptionsWCOW)
    (f : String) (fs : FS) (p : String) (fs1 : FS) (ev : List Event)
    (h : provisionScratch env opts f fs = (Except.ok (p, fs1), ev)) :
    provisionScratch env opts f fs1 = (Except.ok (p, fs1), []) := by
  unfold provisionScratch at h
  split at h
  next e ev2 hg => simp at h
  next sf fsm evg hg =>
    split at h
    next e ev2 he => simp at h
    next fs2 eve he =>
      simp only [Prod.mk.injEq, Except.ok.injEq] at h
      obtain ⟨⟨rfl, rfl⟩, rfl⟩ := h
      obtain ⟨hsf, hfolder, _hmono, _⟩ :=
        getScratchFolder_ok opts fs env.mkdirAll sf fsm evg hg
      obtain ⟨hdisk, hmono2, _⟩ :=
        ensureScratchDisk_ok env f sf opts.id fsm fs2 eve he
      have hfolder1 : fsExists fs2 (opts.layerFolders.getLastD "") = true := by
        rw [← hsf]
        exact hmono2 sf hfolder
      unfold provisionScratch
      rw [getScratchFolder_skip opts fs2 env.mkdirAll hfolder1, ← hsf]
      dsimp only
      rw [ensureScratchDisk_skip env f sf opts.id fs2 hdisk]
      rfl

theorem C7_provision_scratch_idempotent_witness :
    provisionScratch sampleEnv sampleOpts "uvmFolder"
        ⟨["scratchDir\\sandbox.vhdx", "scratchDir"]⟩ =
      (Except.ok ("scratchDir", ⟨["scratchDir\\sandbox.vhdx", "scratchDir"]⟩),
       []) :=
  C7_provision_scratch_idempotent sampleEnv sampleOpts "uvmFolder" ⟨[]⟩
    "scratchDir" ⟨["scratchDir\\sandbox.vhdx", "scratchDir"]⟩
    [Event.mkdirAll "scratchDir",
     Event.createUVMScratch "uvmFolder" "scratchDir" "vm1"] rfl

/-! ## Lemmas about the creation pipeline -/

/-- When every resource replays successfully, `replayAll` folds all the
effects in recorded order and logs one replay call per resource. -/
theorem replayAll_all_ok (rs : List CloneableResource) (u : UVMState)
    (devs : Devices) (h : ∀ r ∈ rs, r.res = Except.ok ()) :
    replayAll rs u devs =
      (Except.ok (rs.foldl (fun s r => r.uvmEffect s) u,
                  rs.foldl (fun s r => r.docEffect s) devs),
       rs.map (fun r => Event.cloneReplay r.rid)) := by
  induction rs generalizing u devs with
  | nil => simp [replayAll]
  | cons r rest ih =>
    have hr : r.res = Except.ok () := h r (by simp)
    have hrest : ∀ x ∈ rest, x.res = Except.ok () := fun x hx => h x (by simp [hx])
    simp [replayAll, hr, ih (r.uvmEffect u) (r.docEffect devs) hrest]

/-- A successful `replayAll` run is the fold of the resource effects, and
its trace is exactly one replay call per resource, in order. -/
theorem replayAll_ok_inv (rs : List CloneableResource) (u : UVMState)
    (devs : Devices) (u2 : UVMState) (d2 : Devices) (ev : List Event)
    (h : replayAll rs u devs = (Except.ok (u2, d2), ev)) :
    u2 = rs.foldl (fun s r => r.uvmEffect s) u ∧
    ev = rs.map (fun r => Event.cloneReplay r.rid) := by
  induction rs generalizing u devs ev with
  | nil =>
    simp only [replayAll, Prod.mk.injEq, Except.ok.injEq] at h
    obtain ⟨⟨rfl, rfl⟩, rfl⟩ := h
    simp
  | cons r rest ih =>
    rcases hres : r.res with e | u0
    · simp [replayAll, hres] at h
    · rcases hrec : replayAll rest (r.uvmEffect u) (r.docEffect devs) with ⟨out, ev3⟩
      simp only [replayAll, hres, hrec, Prod.mk.injEq] at h
      obtain ⟨hout, hev⟩ := h
      cases out with
      | error e => simp at hout
      | ok pair =>
        obtain ⟨uu, dd⟩ := pair
        simp only [Except.ok.injEq, Prod.mk.injEq] at hout
        obtain ⟨rfl, rfl⟩ := hout
        obtain ⟨h1, h2⟩ := ih (r.uvmEffect u) (r.docEffect devs) ev3 hrec
        subst h1 h2 hev
        simp

/-- `replayAll` stops at the first failing resource: the resources before
it are replayed in order, the failing one is attempted, nothing after it
is replayed, and its error is returned. -/
theorem replayAll_fail (pre : List CloneableResource) (r0 : CloneableResource)
    (rest : List CloneableResource) (err : String) (u : UVMState)
    (devs : Devices) (hpre : ∀ x ∈ pre, x.res = Except.ok ())
    (hr : r0.res = Except.error err) :
    replayAll (pre ++ r0 :: rest) u devs =
      (Except.error err,
       (pre ++ [r0]).map (fun x => Event.cloneReplay x.rid)) := by
  induction pre generalizing u devs with
  | nil => simp [replayAll, hr]
  | cons x xs ih =>
    have hx : x.res = Except.ok () := hpre x (by simp)
    have hxs : ∀ y ∈ xs, y.res = Except.ok () := fun y hy => hpre y (by simp [hy])
    simp [replayAll, hx, ih (x.uvmEffect u) (x.docEffect devs) hxs]

/-- `resolveID` only fills in a missing id. -/
theorem resolveID_preserves (env : Env) (opts : OptionsWCOW) :
    (resolveID env opts).isClone = opts.isClone ∧
    (resolveID env opts).externalGuestConnection = opts.externalGuestConnection ∧
    (resolveID env opts).layerFolders = opts.layerFolders ∧
    (resolveID env opts).templateConfig = opts.templateConfig ∧
    (resolveID env opts).isTemplate = opts.isTemplate := by
  unfold resolveID
  split <;> exact ⟨rfl, rfl, rfl, rfl, rfl⟩

theorem verifyOptions_resolveID (env : Env) (opts : OptionsWCOW) :
    verifyOptions (resolveID env opts) = verifyOptions opts := by
  unfold resolveID
  split <;> rfl

theorem getScratchFolder_resolveID (env : Env) (opts : OptionsWCOW) (fs : FS)
    (mk : Except String Unit) :
    getScratchFolder (resolveID env opts) fs mk = getScratchFolder opts fs mk := by
  unfold resolveID
  split <;> rfl

/-- Inversion of a successful `prepareConfigDoc`: the guest-connection
marker tracks only the external-guest-connection option, no SCSI
attachments are present yet, and the handle is only updated with the
resolved processor count. -/
theorem prepareConfigDoc_inv (env : Env) (uvm : UVMState) (opts : OptionsWCOW)
    (f : String) (doc : ComputeSystem) (uvm1 : UVMState)
    (h : prepareConfigDoc env uvm opts f = Except.ok (doc, uvm1)) :
    doc.virtualMachine.guestConnection = !opts.externalGuestConnection ∧
    doc.virtualMachine.devices.scsi = none ∧
    uvm1.scsiLocations = uvm.scsiLocations ∧
    uvm1.id = uvm.id := by
  rcases hn : env.hostLogicalProcessorCount with e | n
  · simp [prepareConfigDoc, hn] at h
  · simp only [prepareConfigDoc, hn, Except.ok.injEq, Prod.mk.injEq] at h
    obtain ⟨rfl, rfl⟩ := h
    exact ⟨rfl, rfl, rfl, rfl⟩

/-- `prepareConfigDoc` succeeds whenever the host processor query does. -/
theorem prepareConfigDoc_ok_of_info (env : Env) (uvm : UVMState)
    (opts : OptionsWCOW) (f : String) (n : Int)
    (hn : env.hostLogicalProcessorCount = Except.ok n) :
    ∃ doc uvm1, prepareConfigDoc env uvm opts f = Except.ok (doc, uvm1) := by
  unfold prepareConfigDoc
  rw [hn]
  exact ⟨_, _, rfl⟩

theorem cloneReplayIDs_append (a b : List Event) :
    cloneReplayIDs (a ++ b) = cloneReplayIDs a ++ cloneReplayIDs b := by
  simp [cloneReplayIDs, List.filterMap_append]

theorem cloneReplayIDs_map (rs : List CloneableResource) :
    cloneReplayIDs (rs.map (fun r => Event.cloneReplay r.rid)) =
      rs.map (fun r => r.rid) := by
  induction rs with
  | nil => rfl
  | cons r rest ih =>
    simp only [cloneReplayIDs, List.map_cons, List.filterMap_cons] at ih ⊢
    rw [ih]

/-- Inversion of a successful `buildUVM` run: the guest-connection marker
tracks only the external-guest-connection option; a non-clone run yields
exactly one SCSI attachment at controller "0" slot "0" for the scratch
disk and the matching slot-table entry, with only folder/disk-creation
calls in the trace; a clone run replays the template's resources in
recorded order, never creates a scratch disk file, and its slot table is
exactly the result of folding the replayed resources' effects over an
empty slot table. -/
theorem buildUVM_ok (env : Env) (opts : OptionsWCOW) (u : UVMState)
    (d : ComputeSystem) (fsr : FS) (ev : List Event)
    (h : buildUVM env opts = (Except.ok (u, d, fsr), ev)) :
    d.virtualMachine.guestConnection = !opts.externalGuestConnection ∧
    ((opts.isClone = false ∧
      d.virtualMachine.devices.scsi =
        some [("0", { attachments := [("0",
          { path := joinPath (opts.layerFolders.getLastD "") "sandbox.vhdx",
            type_ := "VirtualDisk" })] })] ∧
      u.scsiLocations =
        [((0, 0),
          { hostPath := joinPath (opts.layerFolders.getLastD "") "sandbox.vhdx",
            refCount := 1 })] ∧
      (∀ e ∈ ev, (∃ p, e = Event.mkdirAll p) ∨
        (∃ a b c, e = Event.createUVMScratch a b c))) ∨
     (opts.isClone = true ∧
      ∃ tc : UVMTemplateConfig, opts.templateConfig = some tc ∧
        cloneReplayIDs ev = tc.resources.map (fun r => r.rid) ∧
        (∃ u1 : UVMState, u1.scsiLocations = [] ∧
          u.scsiLocations =
            (tc.resources.foldl (fun s r => r.uvmEffect s) u1).scsiLocations) ∧
        (∀ e ∈ ev, (∃ p, e = Event.mkdirAll p) ∨
          (∃ r, e = Event.cloneReplay r)))) := by
  unfold buildUVM at h
  rcases hv : verifyOptions opts with e | u0
  · rw [hv] at h
    simp at h
  · rw [hv] at h
    dsimp only at h
    rcases hl : env.locateUVMFolder with e | uvmFolder
    · rw [hl] at h
      simp at h
    · rw [hl] at h
      dsimp only at h
      rcases hg : getScratchFolder opts env.fs env.mkdirAll with ⟨rg, evg⟩
      rw [hg] at h
      cases rg with
      | error e => simp at h
      | ok sfpair =>
      obtain ⟨sf, fs1⟩ := sfpair
      dsimp only at h
      rcases hp : prepareConfigDoc env (initUVM opts) opts uvmFolder
        with e | docpair
      · rw [hp] at h
        simp at h
      · rw [hp] at h
        obtain ⟨doc, uvm1⟩ := docpair
        dsimp only at h
        obtain ⟨hgc, hscsinone, hslots1, _hid1⟩ :=
          prepareConfigDoc_inv env (initUVM opts) opts uvmFolder doc uvm1 hp
        obtain ⟨hsf, _hex, _hmono, hevg⟩ :=
          getScratchFolder_ok opts env.fs env.mkdirAll sf fs1 evg hg
        cases hcl : opts.isClone with
        | true =>
          rw [if_pos hcl] at h
          rcases htc : opts.templateConfig with _ | tc
          · rw [htc] at h
            simp at h
          · rw [htc] at h
            dsimp only at h
            rcases hr : replayAll tc.resources uvm1 doc.virtualMachine.devices
              with ⟨rr, ev2⟩
            rw [hr] at h
            cases rr with
            | error e => simp at h
            | ok updpair =>
            obtain ⟨uvm2, devs⟩ := updpair
            dsimp only at h
            simp only [Prod.mk.injEq, Except.ok.injEq] at h
            obtain ⟨⟨rfl, rfl, rfl⟩, rfl⟩ := h
            obtain ⟨hu2, hev2⟩ :=
              replayAll_ok_inv tc.resources uvm1 doc.virtualMachine.devices
                uvm2 devs ev2 hr
            refine ⟨by simpa using hgc, Or.inr ⟨rfl, tc, rfl, ?_, ?_, ?_⟩⟩
            · have hevg0 : cloneReplayIDs evg = [] := by
                rw [cloneReplayIDs, List.filterMap_eq_nil_iff]
                intro a ha
                obtain ⟨p, rfl⟩ := hevg a ha
                rfl
              rw [hev2, cloneReplayIDs_append, hevg0, cloneReplayIDs_map]
              simp
            · refine ⟨uvm1, by rw [hslots1]; rfl, ?_⟩
              simp [hu2]
            · intro e he
              rcases List.mem_append.mp he with h1 | h2
              · exact Or.inl (hevg e h1)
              · right
                rw [hev2] at h2
                obtain ⟨r, _, rfl⟩ := List.mem_map.mp h2
                exact ⟨r.rid, rfl⟩
        | false =>
          rw [if_neg (by simp [hcl])] at h
          rcases he2 : ensureScratchDisk env uvmFolder sf uvm1.id fs1
            with ⟨re, ev2⟩
          rw [he2] at h
          cases re with
          | error e => simp at h
          | ok fs2 =>
          dsimp only at h
          simp only [Prod.mk.injEq, Except.ok.injEq] at h
          obtain ⟨⟨rfl, rfl, rfl⟩, rfl⟩ := h
          obtain ⟨_hde, _hdm, hevd⟩ :=
            ensureScratchDisk_ok env uvmFolder sf uvm1.id fs1 fs2 ev2 he2
          subst hsf
          refine ⟨by simpa using hgc, Or.inl ⟨rfl, by simp, rfl, ?_⟩⟩
          intro e he
          rcases List.mem_append.mp he with h1 | h2
          · exact Or.inl (hevg e h1)
          · exact Or.inr (hevd e h2)

theorem applySaveable_guestConnection (doc : ComputeSystem) :
    (applySaveable doc).virtualMachine.guestConnection =
      doc.virtualMachine.guestConnection := rfl

theorem applySaveable_scsi (doc : ComputeSystem) :
    (applySaveable doc).virtualMachine.devices.scsi =
      doc.virtualMachine.devices.scsi := rfl

/-- Inversion of a successful `finishCreate` run: the submission
succeeded, the returned document differs from the built one only in the
template VSMB share options, the slot table is untouched, the listener is
stored iff the external-guest-connection option is set or the VM is a
clone, and the trace is the submission followed by the conditional
listener start. -/
theorem finishCreate_ok (env : Env) (opts : OptionsWCOW) (uvm : UVMState)
    (doc : ComputeSystem) (u2 : UVMState) (d2 : ComputeSystem) (j : JVal)
    (ev2 : List Event)
    (h : finishCreate env opts uvm doc = (Except.ok (u2, d2, j), ev2)) :
    env.create = Except.ok () ∧
    d2.virtualMachine.guestConnection = doc.virtualMachine.guestConnection ∧
    d2.virtualMachine.devices.scsi = doc.virtualMachine.devices.scsi ∧
    u2.scsiLocations = uvm.scsiLocations ∧
    u2.gcListener =
      (if opts.externalGuestConnection || opts.isClone then
        some { vmID := env.runtimeID, serviceID := WindowsGcsHvsockServiceID }
      else uvm.gcListener) ∧
    ev2 = Event.submit ::
      (if opts.externalGuestConnection || opts.isClone then
        [Event.startGcsListener env.runtimeID WindowsGcsHvsockServiceID]
      else []) := by
  unfold finishCreate at h
  rcases hc : env.create with e | uc
  · rw [hc] at h
    simp at h
  · rw [hc] at h
    dsimp only at h
    cases hf : (opts.externalGuestConnection || opts.isClone) with
    | true =>
      rw [if_pos hf] at h
      rcases hlisten : env.listen with e | ul
      · rw [hlisten] at h
        simp at h
      · rw [hlisten] at h
        dsimp only at h
        simp only [Prod.mk.injEq, Except.ok.injEq] at h
        obtain ⟨⟨rfl, rfl, rfl⟩, rfl⟩ := h
        refine ⟨rfl, ?_, ?_, rfl, by simp [hf], by simp [hf]⟩ <;>
          cases opts.isTemplate <;>
            simp [applySaveable_guestConnection, applySaveable_scsi]
    | false =>
      rw [if_neg (by simp [hf])] at h
      simp only [Prod.mk.injEq, Except.ok.injEq] at h
      obtain ⟨⟨rfl, rfl, rfl⟩, rfl⟩ := h
      refine ⟨rfl, ?_, ?_, rfl, by simp [hf], by simp [hf]⟩ <;>
        cases opts.isTemplate <;>
          simp [applySaveable_guestConnection, applySaveable_scsi]

/-- Only the guest-channel branch ever logs a listener start. -/
theorem finishCreate_startGcs_mem (env : Env) (opts : OptionsWCOW)
    (uvm : UVMState) (doc : ComputeSystem) (a b : String)
    (h : Event.startGcsListener a b ∈ (finishCreate env opts uvm doc).2) :
    (opts.externalGuestConnection || opts.isClone) = true := by
  unfold finishCreate at h
  rcases hc : env.create with e | uc
  · rw [hc] at h
    simp at h
  · rw [hc] at h
    dsimp only at h
    cases hf : (opts.externalGuestConnection || opts.isClone) with
    | true => rfl
    | false =>
      rw [hf] at h
      simp at h

/-- When the submission succeeded and the guest channel is required, the
listener start is logged. -/
theorem finishCreate_startGcs_of_flag (env : Env) (opts : OptionsWCOW)
    (uvm : UVMState) (doc : ComputeSystem)
    (hc : env.create = Except.ok ())
    (hflag : (opts.externalGuestConnection || opts.isClone) = true) :
    Event.startGcsListener env.runtimeID WindowsGcsHvsockServiceID ∈
      (finishCreate env opts uvm doc).2 := by
  unfold finishCreate
  rw [hc]
  dsimp only
  rw [if_pos hflag]
  rcases env.listen with e | ul <;> simp

/-- Inversion of a successful `CreateWCOW` run into its two phases. -/
theorem CreateWCOW_ok (env : Env) (opts : OptionsWCOW) (u : UVMState)
    (d : ComputeSystem) (j : JVal) (tr : List Event)
    (h : CreateWCOW env opts = (Except.ok (u, d, j), tr)) :
    ∃ ub db fsb ev ev2,
      buildUVM env (resolveID env opts) = (Except.ok (ub, db, fsb), ev) ∧
      finishCreate env (resolveID env opts) ub db =
        (Except.ok (u, d, j), ev2) ∧
      tr = ev ++ ev2 := by
  unfold CreateWCOW at h
  rcases hb : buildUVM env (resolveID env opts) with ⟨rb, ev⟩
  rw [hb] at h
  cases rb with
  | error e => simp at h
  | ok s =>
    obtain ⟨ub, db, fsb⟩ := s
    dsimp only at h
    rcases hf : finishCreate env (resolveID env opts) ub db with ⟨res, ev2⟩
    rw [hf] at h
    dsimp only at h
    simp only [Prod.mk.injEq] at h
    obtain ⟨hres, htr⟩ := h
    exact ⟨ub, db, fsb, ev, ev2, rfl, by rw [hf, hres], htr.symm⟩

/-- Every call `getScratchFolder` makes is a directory creation. -/
theorem getScratchFolder_events (opts : OptionsWCOW) (fs : FS)
    (mk : Except String Unit) :
    ∀ e ∈ (getScratchFolder opts fs mk).2, ∃ p, e = Event.mkdirAll p := by
  simp only [getScratchFolder]
  split
  · simp
  · split <;> simp

/-- Every call `replayAll` makes is a clone replay. -/
theorem replayAll_events (rs : List CloneableResource) (u : UVMState)
    (devs : Devices) :
    ∀ e ∈ (replayAll rs u devs).2, ∃ r, e = Event.cloneReplay r := by
  induction rs generalizing u devs with
  | nil => simp [replayAll]
  | cons r rest ih =>
    intro e he
    rcases hres : r.res with e0 | u0
    · simp only [replayAll, hres] at he
      simp at he
      exact ⟨r.rid, he⟩
    · rcases hrec : replayAll rest (r.uvmEffect u) (r.docEffect devs)
        with ⟨out, ev⟩
      simp only [replayAll, hres, hrec] at he
      rcases List.mem_cons.mp he with h1 | h1
      · exact ⟨r.rid, h1⟩
      · exact ih (r.uvmEffect u) (r.docEffect devs) e (by rw [hrec]; exact h1)

/-- Every call `finishCreate` makes is a submission, a listener start or
the teardown. -/
theorem finishCreate_events_shape (env : Env) (opts : OptionsWCOW)
    (uvm : UVMState) (doc : ComputeSystem) :
    ∀ e ∈ (finishCreate env opts uvm doc).2,
      e = Event.submit ∨ (∃ a b, e = Event.startGcsListener a b) ∨
        e = Event.uvmClose := by
  unfold finishCreate
  rcases hc : env.create with e0 | u0
  · intro e he
    simp at he
    rcases he with rfl | rfl
    · exact Or.inl rfl
    · exact Or.inr (Or.inr rfl)
  · dsimp only
    split
    · rcases hl : env.listen with e0 | u0 <;>
      · intro e he
        simp at he
        rcases he with rfl | he2
        · exact Or.inl rfl
        · rcases he2 with rfl | rfl
          all_goals first
            | exact Or.inr (Or.inl ⟨_, _, rfl⟩)
            | exact Or.inr (Or.inr rfl)
    · intro e he
      simp at he
      subst he
      exact Or.inl rfl

/-- A clone run of `buildUVM` never calls the scratch-disk creation, on
any path. -/
theorem buildUVM_clone_no_scratch (env : Env) (opts : OptionsWCOW)
    (hcl : opts.isClone = true) :
    ∀ a b c, Event.createUVMScratch a b c ∉ (buildUVM env opts).2 := by
  intro a b c hmem
  unfold buildUVM at hmem
  rcases hv : verifyOptions opts with e | u0
  · rw [hv] at hmem
    simp at hmem
  · rw [hv] at hmem
    dsimp only at hmem
    rcases hl : env.locateUVMFolder with e | uvmFolder
    · rw [hl] at hmem
      simp at hmem
    · rw [hl] at hmem
      dsimp only at hmem
      rcases hg : getScratchFolder opts env.fs env.mkdirAll with ⟨rg, evg⟩
      rw [hg] at hmem
      have hevg : ∀ e ∈ evg, ∃ p, e = Event.mkdirAll p := by
        have h0 := getScratchFolder_events opts env.fs env.mkdirAll
        rw [hg] at h0
        exact h0
      cases rg with
      | error e =>
        dsimp only at hmem
        rcases List.mem_append.mp hmem with h1 | h1
        · obtain ⟨p, hp⟩ := hevg _ h1
          exact Event.noConfusion hp
        · simp at h1
      | ok sfpair =>
      obtain ⟨sf, fs1⟩ := sfpair
      dsimp only at hmem
      rcases hp : prepareConfigDoc env (initUVM opts) opts uvmFolder
        with e | docpair
      · rw [hp] at hmem
        dsimp only at hmem
        rcases List.mem_append.mp hmem with h1 | h1
        · obtain ⟨p, hp2⟩ := hevg _ h1
          exact Event.noConfusion hp2
        · simp at h1
      · rw [hp] at hmem
        obtain ⟨doc, uvm1⟩ := docpair
        dsimp only at hmem
        rw [if_pos hcl] at hmem
        rcases htc : opts.templateConfig with _ | tc
        · rw [htc] at hmem
          dsimp only at hmem
          rcases List.mem_append.mp hmem with h1 | h1
          · obtain ⟨p, hp2⟩ := hevg _ h1
            exact Event.noConfusion hp2
          · simp at h1
        · rw [htc] at hmem
          dsimp only at hmem
          rcases hr : replayAll tc.resources uvm1 doc.virtualMachine.devices
            with ⟨rr, ev2⟩
          rw [hr] at hmem
          have hev2 : ∀ e ∈ ev2, ∃ r, e = Event.cloneReplay r := by
            have h0 := replayAll_events tc.resources uvm1
              doc.virtualMachine.devices
            rw [hr] at h0
            exact h0
          cases rr with
          | error e =>
            dsimp only at hmem
            rcases List.mem_append.mp hmem with h1 | h1
            · rcases List.mem_append.mp h1 with h2 | h2
              · obtain ⟨p, hp2⟩ := hevg _ h2
                exact Event.noConfusion hp2
              · obtain ⟨r, hp2⟩ := hev2 _ h2
                exact Event.noConfusion hp2
            · simp at h1
          | ok updpair =>
            obtain ⟨uvm2, devs⟩ := updpair
            dsimp only at hmem
            rcases List.mem_append.mp hmem with h1 | h1
            · obtain ⟨p, hp2⟩ := hevg _ h1
              exact Event.noConfusion hp2
            · obtain ⟨r, hp2⟩ := hev2 _ h1
              exact Event.noConfusion hp2

/-- A clone invocation of `CreateWCOW` never calls the scratch-disk
creation, whether it succeeds or fails. -/
theorem CreateWCOW_clone_no_scratch (env : Env) (opts : OptionsWCOW)
    (hcl : opts.isClone = true) :
    ∀ a b c, Event.createUVMScratch a b c ∉ (CreateWCOW env opts).2 := by
  intro a b c hmem
  have hclR : (resolveID env opts).isClone = true := by
    rw [(resolveID_preserves env opts).1, hcl]
  unfold CreateWCOW at hmem
  rcases hb : buildUVM env (resolveID env opts) with ⟨rb, ev⟩
  rw [hb] at hmem
  have hnob := buildUVM_clone_no_scratch env (resolveID env opts) hclR a b c
  rw [hb] at hnob
  cases rb with
  | error e =>
    dsimp only at hmem
    exact hnob hmem
  | ok s =>
    obtain ⟨ub, db, fsb⟩ := s
    dsimp only at hmem
    rcases List.mem_append.mp hmem with h1 | h2
    · exact hnob h1
    · rcases finishCreate_events_shape env (resolveID env opts) ub db _ h2
        with h3 | ⟨a1, b1, h3⟩ | h3 <;> exact Event.noConfusion h3

/-! ## Theorems: CreateWCOW -/

/-- C1: every successful non-clone `CreateWCOW` run builds a document with
exactly one SCSI attachment, at controller "0" slot "0", whose path is the
scratch disk `<last layer folder>\sandbox.vhdx`, and records exactly that
mount at slot (0,0) of the handle's slot table; every successful clone run
makes no scratch-disk creation call, and its slot table is exactly the
fold of the replayed resources' effects over an empty slot table. -/
theorem C1_scratch_attachment_and_clone :
    (∀ (env : Env) (opts : OptionsWCOW) (u : UVMState) (d : ComputeSystem)
        (j : JVal) (tr : List Event),
      CreateWCOW env opts = (Except.ok (u, d, j), tr) →
      (opts.isClone = false →
        d.virtualMachine.devices.scsi =
          some [("0", { attachments := [("0",
            { path := joinPath (opts.layerFolders.getLastD "") "sandbox.vhdx",
              type_ := "VirtualDisk" })] })] ∧
        u.scsiLocations =
          [((0, 0),
            { hostPath :=
                joinPath (opts.layerFolders.getLastD "") "sandbox.vhdx",
              refCount := 1 })] ∧
        lookupSlot u.scsiLocations (0, 0) =
          some { hostPath :=
                   joinPath (opts.layerFolders.getLastD "") "sandbox.vhdx",
                 refCount := 1 }) ∧
      (opts.isClone = true →
        ∃ tc : UVMTemplateConfig, opts.templateConfig = some tc ∧
          ∃ u1 : UVMState, u1.scsiLocations = [] ∧
            u.scsiLocations =
              (tc.resources.foldl (fun s r => r.uvmEffect s)
                u1).scsiLocations)) ∧
    (∀ (env : Env) (opts : OptionsWCOW), opts.isClone = true →
      ∀ a b c, Event.createUVMScratch a b c ∉ (CreateWCOW env opts).2) := by
  constructor
  · intro env opts u d j tr h
    obtain ⟨ub, db, fsb, ev, ev2, hb, hf, rfl⟩ :=
      CreateWCOW_ok env opts u d j tr h
    obtain ⟨hgc, hcase⟩ := buildUVM_ok env (resolveID env opts) ub db fsb ev hb
    obtain ⟨hcreate, hgc2, hscsi2, hslots2, hlisten2, hev2⟩ :=
      finishCreate_ok env (resolveID env opts) ub db u d j ev2 hf
    obtain ⟨hpc, hpe, hpl, hpt, _hpit⟩ := resolveID_preserves env opts
    constructor
    · intro hncl
      rcases hcase with ⟨_, hdscsi, huslots, _⟩ | ⟨hcl2, _⟩
      · rw [hpl] at hdscsi huslots
        rw [hscsi2, hslots2, hdscsi, huslots]
        refine ⟨rfl, rfl, ?_⟩
        simp [lookupSlot]
      · rw [hpc, hncl] at hcl2
        exact Bool.noConfusion hcl2
    · intro hcl
      rcases hcase with ⟨hcl2, _⟩ |
        ⟨_, tc, htc, _hids, ⟨u1, hu1, hfold⟩, _hshape⟩
      · rw [hpc, hcl] at hcl2
        exact Bool.noConfusion hcl2
      · exact ⟨tc, by rw [← hpt]; exact htc, u1, hu1,
          by rw [hslots2]; exact hfold⟩
  · exact CreateWCOW_clone_no_scratch

/-- C2: when creation reaches the post-submission phase, the external
guest-channel listener is started — bound to the VM runtime id and the
fixed well-known GCS service id — iff the external-guest-connection option
is set or the VM is a clone (clones force it regardless of the option). -/
theorem C2_clone_forces_external_gcs_listener (env : Env) (opts : OptionsWCOW)
    (ub : UVMState) (db : ComputeSystem) (fsb : FS) (ev1 : List Event)
    (hb : buildUVM env (resolveID env opts) = (Except.ok (ub, db, fsb), ev1))
    (hc : env.create = Except.ok ()) :
    (Event.startGcsListener env.runtimeID WindowsGcsHvsockServiceID ∈
        (CreateWCOW env opts).2) ↔
      (opts.externalGuestConnection = true ∨ opts.isClone = true) := by
  have htrace : (CreateWCOW env opts).2 =
      ev1 ++ (finishCreate env (resolveID env opts) ub db).2 := by
    unfold CreateWCOW
    rw [hb]
  obtain ⟨hpc, hpe, _, _, _⟩ := resolveID_preserves env opts
  have hnotin : ∀ a b, Event.startGcsListener a b ∉ ev1 := by
    intro a b hmem
    obtain ⟨_, hcase⟩ := buildUVM_ok env (resolveID env opts) ub db fsb ev1 hb
    rcases hcase with ⟨_, _, _, hshape⟩ | ⟨_, tc, _, _, _, hshape⟩
    · rcases hshape _ hmem with ⟨p, hp⟩ | ⟨a1, b1, c1, hp⟩ <;> simp at hp
    · rcases hshape _ hmem with ⟨p, hp⟩ | ⟨r, hp⟩ <;> simp at hp
  constructor
  · intro hmem
    rw [htrace] at hmem
    rcases List.mem_append.mp hmem with h1 | h2
    · exact absurd h1 (hnotin _ _)
    · have hflag :=
        finishCreate_startGcs_mem env (resolveID env opts) ub db _ _ h2
      rw [hpe, hpc] at hflag
      simpa using hflag
  · intro hor
    rw [htrace]
    refine List.mem_append.mpr (Or.inr ?_)
    apply finishCreate_startGcs_of_flag env (resolveID env opts) ub db hc
    rw [hpe, hpc]
    rcases hor with h1 | h1 <;> simp [h1]

/-- C10: the in-document guest-connection marker depends only on the
external-guest-connection option: with the option unset, every successful
run — clone runs included — builds a document containing the marker, even
though a clone also stores the external guest-channel listener. -/
theorem C10_guest_connection_marker_independent_of_clone (env : Env)
    (opts : OptionsWCOW) (u : UVMState) (d : ComputeSystem) (j : JVal)
    (tr : List Event)
    (hext : opts.externalGuestConnection = false)
    (h : CreateWCOW env opts = (Except.ok (u, d, j), tr)) :
    d.virtualMachine.guestConnection = true ∧
    (opts.isClone = true →
      u.gcListener = some { vmID := env.runtimeID,
                            serviceID := WindowsGcsHvsockServiceID }) := by
  obtain ⟨ub, db, fsb, ev, ev2, hb, hf, rfl⟩ :=
    CreateWCOW_ok env opts u d j tr h
  obtain ⟨hgc, _⟩ := buildUVM_ok env (resolveID env opts) ub db fsb ev hb
  obtain ⟨_, hgc2, _, _, hlisten2, _⟩ :=
    finishCreate_ok env (resolveID env opts) ub db u d j ev2 hf
  obtain ⟨hpc, hpe, _, _, _⟩ := resolveID_preserves env opts
  constructor
  · rw [hgc2, hgc, hpe, hext]
    rfl
  · intro hcl
    have hflag : ((resolveID env opts).externalGuestConnection ||
        (resolveID env opts).isClone) = true := by
      rw [hpe, hpc, hext, hcl]
      rfl
    rw [hlisten2, if_pos hflag]

/-- C4: a clone replays the template's cloneable resources in exactly the
recorded order; when the replay of a resource fails, no later resource is
replayed, `CreateWCOW` returns an error, and the partially built handle is
discarded through its teardown path, so no partial handle is returned. -/
theorem C4_clone_replay_order_and_abort :
    (∀ (env : Env) (opts : OptionsWCOW) (tc : UVMTemplateConfig)
        (u : UVMState) (d : ComputeSystem) (j : JVal) (tr : List Event),
      opts.isClone = true →
      opts.templateConfig = some tc →
      CreateWCOW env opts = (Except.ok (u, d, j), tr) →
      cloneReplayIDs tr = tc.resources.map (fun r => r.rid)) ∧
    (∀ (env : Env) (opts : OptionsWCOW) (tc : UVMTemplateConfig)
        (pre : List CloneableResource) (r0 : CloneableResource)
        (rest : List CloneableResource) (err f sf : String) (fs1 : FS)
        (ev1 : List Event) (n : Int),
      opts.isClone = true →
      opts.templateConfig = some tc →
      opts.layerFolders ≠ [] →
      tc.resources = pre ++ r0 :: rest →
      (∀ x ∈ pre, x.res = Except.ok ()) →
      r0.res = Except.error err →
      env.locateUVMFolder = Except.ok f →
      getScratchFolder opts env.fs env.mkdirAll =
        (Except.ok (sf, fs1), ev1) →
      env.hostLogicalProcessorCount = Except.ok n →
      CreateWCOW env opts =
        (Except.error ("Failed while cloning: " ++ err),
         ev1 ++ (pre ++ [r0]).map (fun x => Event.cloneReplay x.rid) ++
           [Event.uvmClose]) ∧
      (∀ s, Event.cloneReplay s ∉ ev1)) := by
  constructor
  · intro env opts tc u d j tr hcl htc h
    obtain ⟨ub, db, fsb, ev, ev2, hb, hf, rfl⟩ :=
      CreateWCOW_ok env opts u d j tr h
    obtain ⟨_, hcase⟩ := buildUVM_ok env (resolveID env opts) ub db fsb ev hb
    obtain ⟨_, _, _, _, _, hev2⟩ :=
      finishCreate_ok env (resolveID env opts) ub db u d j ev2 hf
    obtain ⟨hpc, _, _, hpt, _⟩ := resolveID_preserves env opts
    rcases hcase with ⟨hcl2, _⟩ | ⟨_, tc2, htc2, hids, _, _⟩
    · rw [hpc, hcl] at hcl2
      exact Bool.noConfusion hcl2
    · have htc3 : some tc = some tc2 := by rw [← htc, ← hpt]; exact htc2
      obtain rfl : tc = tc2 := Option.some.injEq _ _ ▸ htc3
      have hev2ids : cloneReplayIDs ev2 = [] := by
        rw [hev2]
        by_cases hflag : ((resolveID env opts).externalGuestConnection ||
            (resolveID env opts).isClone) = true
        · rw [if_pos hflag]
          rfl
        · rw [if_neg hflag]
          rfl
      rw [cloneReplayIDs_append, hids, hev2ids, List.append_nil]
  · intro env opts tc pre r0 rest err f sf fs1 ev1 n hcl htc hlf hres hpre
      hr0 hloc hscr hn
    obtain ⟨hpc, hpe, hpl, hpt, _⟩ := resolveID_preserves env opts
    have hvo : verifyOptions opts = Except.ok () := by
      unfold verifyOptions
      rw [if_neg (by simp [hlf]), if_neg (by simp [htc])]
    obtain ⟨doc, uvm1, hpd⟩ :=
      prepareConfigDoc_ok_of_info env (initUVM (resolveID env opts))
        (resolveID env opts) f n hn
    have hclone2 : (resolveID env opts).isClone = true := by rw [hpc, hcl]
    have htc2 : (resolveID env opts).templateConfig = some tc := by
      rw [hpt, htc]
    have hbuild : buildUVM env (resolveID env opts) =
        (Except.error ("Failed while cloning: " ++ err),
         ev1 ++ (pre ++ [r0]).map (fun x => Event.cloneReplay x.rid) ++
           [Event.uvmClose]) := by
      unfold buildUVM
      rw [verifyOptions_resolveID, hvo]
      dsimp only
      rw [hloc]
      dsimp only
      rw [getScratchFolder_resolveID, hscr]
      dsimp only
      rw [hpd]
      dsimp only
      rw [if_pos hclone2, htc2]
      dsimp only
      rw [hres, replayAll_fail pre r0 rest err uvm1
        doc.virtualMachine.devices hpre hr0]
    constructor
    · unfold CreateWCOW
      rw [hbuild]
    · intro s hmem
      obtain ⟨_, _, _, hshape⟩ :=
        getScratchFolder_ok opts env.fs env.mkdirAll sf fs1 ev1 hscr
      obtain ⟨p, hp⟩ := hshape _ hmem
      exact Event.noConfusion hp

/-! ## Concrete clone fixtures and witnesses -/

/-- A cloneable resource whose replay succeeds and has no effect. -/
def cloneResOkA : CloneableResource :=
  { rid := "r1", res := Except.ok (), docEffect := fun dv => dv,
    uvmEffect := fun s => s }

def cloneResOkB : CloneableResource :=
  { rid := "r2", res := Except.ok (), docEffect := fun dv => dv,
    uvmEffect := fun s => s }

/-- A cloneable resource whose replay fails. -/
def cloneResBad : CloneableResource :=
  { rid := "rX", res := Except.error "boom", docEffect := fun dv => dv,
    uvmEffect := fun s => s }

def tcOk : UVMTemplateConfig :=
  { uvmID := "tmpl", resources := [cloneResOkA, cloneResOkB] }

def tcFail : UVMTemplateConfig :=
  { uvmID := "tmpl", resources := [cloneResOkA, cloneResBad, cloneResOkB] }

def cloneOpts : OptionsWCOW :=
  { sampleOpts with isClone := true, templateConfig := some tcOk }

def cloneFailOpts : OptionsWCOW :=
  { sampleOpts with isClone := true, templateConfig := some tcFail }

theorem C1_scratch_attachment_witness :
    (∃ u d j tr,
      CreateWCOW sampleEnv sampleOpts = (Except.ok (u, d, j), tr) ∧
      d.virtualMachine.devices.scsi =
        some [("0", { attachments := [("0",
          { path := joinPath (sampleOpts.layerFolders.getLastD "")
              "sandbox.vhdx",
            type_ := "VirtualDisk" })] })] ∧
      u.scsiLocations =
        [((0, 0),
          { hostPath := joinPath (sampleOpts.layerFolders.getLastD "")
              "sandbox.vhdx",
            refCount := 1 })]) ∧
    (∀ a b c,
      Event.createUVMScratch a b c ∉ (CreateWCOW sampleEnv cloneOpts).2) := by
  constructor
  · refine ⟨_, _, _, _, rfl, ?_, ?_⟩
    · exact ((C1_scratch_attachment_and_clone.1 sampleEnv sampleOpts
        _ _ _ _ rfl).1 rfl).1
    · exact ((C1_scratch_attachment_and_clone.1 sampleEnv sampleOpts
        _ _ _ _ rfl).1 rfl).2.1
  · exact C1_scratch_attachment_and_clone.2 sampleEnv cloneOpts rfl

theorem C2_clone_forces_external_gcs_listener_witness :
    (Event.startGcsListener sampleEnv.runtimeID WindowsGcsHvsockServiceID ∈
        (CreateWCOW sampleEnv cloneOpts).2) ↔
      (cloneOpts.externalGuestConnection = true ∨ cloneOpts.isClone = true) :=
  C2_clone_forces_external_gcs_listener sampleEnv cloneOpts _ _ _ _ rfl rfl

theorem C10_guest_connection_marker_witness :
    ∃ u d j tr, CreateWCOW sampleEnv cloneOpts = (Except.ok (u, d, j), tr) ∧
      d.virtualMachine.guestConnection = true ∧
      u.gcListener = some { vmID := sampleEnv.runtimeID,
                            serviceID := WindowsGcsHvsockServiceID } := by
  refine ⟨_, _, _, _, rfl, ?_⟩
  have h := C10_guest_connection_marker_independent_of_clone sampleEnv
    cloneOpts _ _ _ _ rfl rfl
  exact ⟨h.1, h.2 rfl⟩

theorem C4_clone_replay_order_witness :
    cloneReplayIDs (CreateWCOW sampleEnv cloneOpts).2 = ["r1", "r2"] ∧
    (CreateWCOW sampleEnv cloneFailOpts =
      (Except.error "Failed while cloning: boom",
       [Event.mkdirAll "scratchDir", Event.cloneReplay "r1",
        Event.cloneReplay "rX", Event.uvmClose]) ∧
     (∀ s, Event.cloneReplay s ∉ [Event.mkdirAll "scratchDir"])) := by
  constructor
  · exact C4_clone_replay_order_and_abort.1 sampleEnv cloneOpts tcOk
      _ _ _ _ rfl rfl rfl
  · exact C4_clone_replay_order_and_abort.2 sampleEnv cloneFailOpts tcFail
      [cloneResOkA] cloneResBad [cloneResOkB] "boom" "uvmFolder"
      "scratchDir" ⟨["scratchDir"]⟩ [Event.mkdirAll "scratchDir"] 4
      rfl rfl (by simp [cloneFailOpts, sampleOpts]) rfl
      (by intro x hx; simp at hx; subst hx; rfl) rfl rfl rfl rfl

end HcsShim
